import Mathlib

set_option maxHeartbeats 1000000

/-!
Shallow embedding of the `vtkShaderProgram` class
(src/Rendering/OpenGL2/vtkShaderProgram.cxx and .h).

Native GL calls are modelled by an oracle environment `GLEnv` supplying the
results of the native queries, and every operation returns, besides its result
and the updated object state, the list of native GL calls it issued.
-/

/-- Shader type tags, as in vtkShader. -/
inductive ShaderType where
  | Vertex
  | Fragment
  | Geometry
  | Unknown
deriving DecidableEq

/-- Modelled from the spec: the external Shader collaborator (vtkShader is part of
this repository but not included under src/). Per spec section 6 it exposes a native
handle (0 = uncompiled), a type tag, source text, and a Compile contract returning
success/failure with an error text; `compileOk` and `compiledHandle` record the
outcome of that contract. -/
structure vtkShader where
  handle : Nat
  type : ShaderType
  source : String
  compileOk : Bool
  compiledHandle : Nat
  compileError : String
deriving DecidableEq

/-- Modelled from the spec: vtkShader::Compile returns success or failure; on
success the shader's native handle becomes valid, on failure the shader's error
text is available via GetError. -/
def vtkShader.compile (s : vtkShader) : Bool × vtkShader :=
  if s.compileOk then (true, { s with handle := s.compiledHandle }) else (false, s)

/-- Modelled from the spec: vtkShader::Cleanup releases the shader's native
resource, so its handle returns to 0 (= uncompiled). -/
def vtkShader.cleanup (s : vtkShader) : vtkShader := { s with handle := 0 }

/-- Native GL calls issued by the program object, recorded as a trace. -/
inductive GLCall where
  | createProgram
  | attachShader (program shader : Nat)
  | detachShader (program shader : Nat)
  | deleteProgram (program : Nat)
  | useProgram (program : Nat)
  | linkProgram (program : Nat)
  | getLinkStatus (program : Nat)
  | getInfoLogLength (program : Nat)
  | getInfoLog (program : Nat)
  | getAttribLocation (program : Nat) (name : String)
  | getUniformLocation (program : Nat) (name : String)
  | vertexAttribPointer (location : Int) (tupleSize : Int)
deriving DecidableEq

/-- Oracle for the results of native GL queries. -/
structure GLEnv where
  newProgramHandle : Nat
  linkStatus : Nat → Bool
  infoLogLength : Nat → Nat
  infoLog : Nat → String
  attribLocation : Nat → String → Int
  uniformLocation : Nat → String → Int

/-- The state of a vtkShaderProgram object: native program handle (0 = not yet
created), the recorded native handles of the currently attached vertex and
fragment shaders, the three flags, the last-error string, the name-to-location
attribute map, and the three owned shader objects. -/
structure vtkShaderProgram where
  Handle : Nat
  VertexShaderHandle : Nat
  FragmentShaderHandle : Nat
  Linked : Bool
  Bound : Bool
  Compiled : Bool
  Error : String
  Attributes : List (String × Int)
  VertexShader : vtkShader
  FragmentShader : vtkShader
  GeometryShader : vtkShader
deriving DecidableEq

/-- The vtkShaderProgram constructor: all handles 0, all flags false, three
freshly created owned shaders with their types set. -/
def vtkShaderProgram.construct (vs fs gs : vtkShader) : vtkShaderProgram :=
  { Handle := 0, VertexShaderHandle := 0, FragmentShaderHandle := 0,
    Linked := false, Bound := false, Compiled := false, Error := "",
    Attributes := [],
    VertexShader := { vs with handle := 0, type := ShaderType.Vertex },
    FragmentShader := { fs with handle := 0, type := ShaderType.Fragment },
    GeometryShader := { gs with handle := 0, type := ShaderType.Geometry } }

namespace vtkShaderProgram

/-- vtkShaderProgram::AttachShader (vtkShaderProgram.cxx lines 109-162). -/
def AttachShader (env : GLEnv) (p : vtkShaderProgram) (shader : vtkShader) :
    Bool × vtkShaderProgram × List GLCall :=
  if shader.handle = 0 then
    (false, { p with Error := "Shader object was not initialized, cannot attach it." }, [])
  else if shader.type = ShaderType.Unknown then
    (false, { p with Error := "Shader object is of type Unknown and cannot be used." }, [])
  else if p.Handle = 0 ∧ env.newProgramHandle = 0 then
    (false, { p with Error := "Could not create shader program." }, [GLCall.createProgram])
  else
    let p1 := if p.Handle = 0 then { p with Handle := env.newProgramHandle, Linked := false } else p
    let c1 : List GLCall := if p.Handle = 0 then [GLCall.createProgram] else []
    if shader.type = ShaderType.Vertex then
      let c2 : List GLCall :=
        if p1.VertexShaderHandle ≠ 0 then
          [GLCall.detachShader p1.Handle p1.VertexShaderHandle]
        else []
      (true,
       { p1 with VertexShaderHandle := shader.handle, Linked := false },
       c1 ++ c2 ++ [GLCall.attachShader p1.Handle shader.handle])
    else if shader.type = ShaderType.Fragment then
      let c2 : List GLCall :=
        if p1.FragmentShaderHandle ≠ 0 then
          [GLCall.detachShader p1.Handle p1.FragmentShaderHandle]
        else []
      (true,
       { p1 with FragmentShaderHandle := shader.handle, Linked := false },
       c1 ++ c2 ++ [GLCall.attachShader p1.Handle shader.handle])
    else
      (false, { p1 with Error := "Unknown shader type encountered - this should not happen." },
       c1)

/-- vtkShaderProgram::DetachShader (vtkShaderProgram.cxx lines 164-214). Note the
Handle == 0 check only assigns the error text, it does not return. -/
def DetachShader (p : vtkShaderProgram) (shader : vtkShader) :
    Bool × vtkShaderProgram × List GLCall :=
  if shader.handle = 0 then
    (false, { p with Error := "Shader object was not initialized, cannot attach it." }, [])
  else if shader.type = ShaderType.Unknown then
    (false, { p with Error := "Shader object is of type Unknown and cannot be used." }, [])
  else
    let p0 :=
      if p.Handle = 0 then { p with Error := "This shader prorgram has not been initialized yet." }
      else p
    match shader.type with
    | ShaderType.Vertex =>
      if p0.VertexShaderHandle ≠ shader.handle then
        (false, { p0 with Error := "The supplied shader was not attached to this program." }, [])
      else
        (true, { p0 with VertexShaderHandle := 0, Linked := false },
         [GLCall.detachShader p0.Handle shader.handle])
    | ShaderType.Fragment =>
      if p0.FragmentShaderHandle ≠ shader.handle then
        (false, { p0 with Error := "The supplied shader was not attached to this program." }, [])
      else
        (true, { p0 with FragmentShaderHandle := 0, Linked := false },
         [GLCall.detachShader p0.Handle shader.handle])
    | _ => (false, p0, [])

/-- vtkShaderProgram::Link (vtkShaderProgram.cxx lines 216-248). -/
def Link (env : GLEnv) (p : vtkShaderProgram) :
    Bool × vtkShaderProgram × List GLCall :=
  if p.Linked then (true, p, [])
  else if p.Handle = 0 then
    (false, { p with Error := "Program has not been initialized, and/or does not have shaders." },
     [])
  else if env.linkStatus p.Handle = false then
    let len := env.infoLogLength p.Handle
    let p1 := if len > 1 then { p with Error := env.infoLog p.Handle } else p
    (false, p1,
     [GLCall.linkProgram p.Handle, GLCall.getLinkStatus p.Handle,
      GLCall.getInfoLogLength p.Handle] ++
     (if len > 1 then [GLCall.getInfoLog p.Handle] else []))
  else
    (true, { p with Linked := true, Attributes := [] },
     [GLCall.linkProgram p.Handle, GLCall.getLinkStatus p.Handle])

/-- vtkShaderProgram::Bind (vtkShaderProgram.cxx lines 250-260). -/
def Bind (env : GLEnv) (p : vtkShaderProgram) :
    Bool × vtkShaderProgram × List GLCall :=
  if p.Linked then
    (true, { p with Bound := true }, [GLCall.useProgram p.Handle])
  else
    let r := Link env p
    if r.1 = false then (false, r.2.1, r.2.2)
    else (true, { r.2.1 with Bound := true }, r.2.2 ++ [GLCall.useProgram r.2.1.Handle])

/-- vtkShaderProgram::Release (vtkShaderProgram.cxx lines 318-322). -/
def Release (p : vtkShaderProgram) : vtkShaderProgram × List GLCall :=
  ({ p with Bound := false }, [GLCall.useProgram 0])

/-- vtkShaderProgram::FindAttributeArray (vtkShaderProgram.cxx lines 591-608). -/
def FindAttributeArray (env : GLEnv) (p : vtkShaderProgram) (name : String) :
    Int × vtkShaderProgram × List GLCall :=
  if name = "" ∨ p.Linked = false then
    (-1, p, [])
  else
    let location := env.attribLocation p.Handle name
    let p1 :=
      if location = -1 then
        { p with Error := "Specified attribute not found in current shader program: " ++ name }
      else p
    (location, p1, [GLCall.getAttribLocation p.Handle name])

/-- vtkShaderProgram::FindUniform (vtkShaderProgram.cxx lines 610-624). -/
def FindUniform (env : GLEnv) (p : vtkShaderProgram) (name : String) :
    Int × vtkShaderProgram × List GLCall :=
  if name = "" ∨ p.Linked = false then
    (-1, p, [])
  else
    let location := env.uniformLocation p.Handle name
    let p1 :=
      if location = -1 then
        { p with Error := "Uniform " ++ name ++ " not found in current shader program." }
      else p
    (location, p1, [GLCall.getUniformLocation p.Handle name])

/-- vtkShaderProgram::SetAttributeArrayInternal (vtkShaderProgram.cxx lines
570-589). The buffer pointer itself carries no information relevant to the
control flow; the trace records the location and tuple size of the upload. -/
def SetAttributeArrayInternal (env : GLEnv) (p : vtkShaderProgram) (name : String)
    (type : Int) (tupleSize : Int) :
    Bool × vtkShaderProgram × List GLCall :=
  if type = -1 then
    (false, { p with Error := "Unrecognized data type for attribute " ++ name ++ "." }, [])
  else
    let r := FindAttributeArray env p name
    if r.1 = -1 then
      (false, { r.2.1 with Error := "Could not set attribute " ++ name ++ ". No such attribute." },
       r.2.2)
    else
      (true, r.2.1, r.2.2 ++ [GLCall.vertexAttribPointer r.1 tupleSize])

/-- vtkShaderProgram::SetAttributeArray template (vtkShaderProgram.cxx lines
95-107): `array` is the client-side container and `elemTypeId` the scalar type
tag computed at compile time from the container's element type by
vtkTypeTraits. -/
def SetAttributeArray {α : Type} (env : GLEnv) (p : vtkShaderProgram) (name : String)
    (array : List α) (elemTypeId : Int) (tupleSize : Int) :
    Bool × vtkShaderProgram × List GLCall :=
  if array.isEmpty then
    (false, { p with Error := "Refusing to upload empty array for attribute " ++ name ++ "." },
     [])
  else
    SetAttributeArrayInternal env p name elemTypeId tupleSize

end vtkShaderProgram

/-- Splits a character stream into the lines produced by repeated std::getline:
segments separated by a line-break character, with a trailing line break
producing no extra empty line. -/
def linesAux : List Char → List Char → List (List Char)
  | [], acc => [acc.reverse]
  | '\n' :: [], acc => [acc.reverse]
  | '\n' :: c :: cs, acc => acc.reverse :: linesAux (c :: cs) []
  | c :: cs, acc => linesAux cs (c :: acc)

/-- The sequence of lines std::getline extracts from a string (an empty string
yields no lines at all, since the first getline immediately hits end of
input). -/
def getlines (s : String) : List String :=
  match s.data with
  | [] => []
  | cs => (linesAux cs []).map (fun l => String.mk l)

/-- Renders lines with 1-indexed numbers, each as `n: line\n`, as built by the
loop in vtkShaderProgram::CompileShader. -/
def numberLines : List String → Nat → String
  | [], _ => ""
  | l :: ls, n => toString n ++ ": " ++ l ++ "\n" ++ numberLines ls (n + 1)

/-- The line-numbered listing of a shader source produced by
vtkShaderProgram::CompileShader on a compile failure. -/
def numberedListing (src : String) : String := numberLines (getlines src) 1

namespace vtkShaderProgram

/-- vtkShaderProgram::CompileShader (vtkShaderProgram.cxx lines 263-314).
Returns the int result (0 = failure), the new state, the native GL trace, and
the list of messages emitted through vtkErrorMacro, in order. -/
def CompileShader (env : GLEnv) (p : vtkShaderProgram) :
    Int × vtkShaderProgram × List GLCall × List String :=
  let rv := p.VertexShader.compile
  let p0 := { p with VertexShader := rv.2 }
  if rv.1 = false then
    (0, p0, [], [rv.2.compileError, numberedListing rv.2.source])
  else
    let rf := p0.FragmentShader.compile
    let p1 := { p0 with FragmentShader := rf.2 }
    if rf.1 = false then
      (0, p1, [], [rf.2.compileError, numberedListing rf.2.source])
    else
      let ra := AttachShader env p1 p1.VertexShader
      if ra.1 = false then
        (0, ra.2.1, ra.2.2, [ra.2.1.Error])
      else
        let rb := AttachShader env ra.2.1 ra.2.1.FragmentShader
        if rb.1 = false then
          (0, rb.2.1, ra.2.2 ++ rb.2.2, [rb.2.1.Error])
        else
          let rl := Link env rb.2.1
          if rl.1 = false then
            (0, rl.2.1, ra.2.2 ++ rb.2.2 ++ rl.2.2, ["Links failed: " ++ rl.2.1.Error])
          else
            (1, { rl.2.1 with Compiled := true }, ra.2.2 ++ rb.2.2 ++ rl.2.2, [])

end vtkShaderProgram

/-- Modelled from the spec: the context owner's program cache holds a
"last bound program" reference; we track only whether that reference currently
points at this program. -/
structure WindowState where
  lastBoundIsThis : Bool
deriving DecidableEq

namespace vtkShaderProgram

/-- vtkShaderProgram::ReleaseGraphicsResources (vtkShaderProgram.cxx lines
324-350): Release, then (if compiled) best-effort detach of both owned shaders
and their cleanup, clearing of the cache's last-bound reference when it points
here, and finally deletion of the native program handle. -/
def ReleaseGraphicsResources (p : vtkShaderProgram) (w : WindowState) :
    vtkShaderProgram × WindowState × List GLCall :=
  let r0 := Release p
  let p1 := r0.1
  let step2 : vtkShaderProgram × List GLCall :=
    if p1.Compiled then
      let ra := DetachShader p1 p1.VertexShader
      let rb := DetachShader ra.2.1 ra.2.1.FragmentShader
      ({ rb.2.1 with
           VertexShader := rb.2.1.VertexShader.cleanup,
           FragmentShader := rb.2.1.FragmentShader.cleanup,
           Compiled := false },
       ra.2.2 ++ rb.2.2)
    else (p1, [])
  let p2 := step2.1
  let w1 := if w.lastBoundIsThis then { w with lastBoundIsThis := false } else w
  let step3 : vtkShaderProgram × List GLCall :=
    if p2.Handle ≠ 0 then
      ({ p2 with Handle := 0, Linked := false }, [GLCall.deleteProgram p2.Handle])
    else (p2, [])
  (step3.1, w1, r0.2 ++ step2.2 ++ step3.2)

end vtkShaderProgram

/-! Concrete sample values used to exercise the embedding on closed inputs. -/

/-- A blank shader record (uncompiled, type not yet set). -/
def shader0 : vtkShader :=
  { handle := 0, type := ShaderType.Unknown, source := "", compileOk := false,
    compiledHandle := 0, compileError := "" }

/-- A compiled vertex shader with native handle 5. -/
def shaderV5 : vtkShader :=
  { handle := 5, type := ShaderType.Vertex, source := "", compileOk := true,
    compiledHandle := 5, compileError := "" }

/-- A compiled fragment shader with native handle 7. -/
def shaderF7 : vtkShader :=
  { handle := 7, type := ShaderType.Fragment, source := "", compileOk := true,
    compiledHandle := 7, compileError := "" }

/-- A vertex shader whose Compile contract fails with error "bad" and a
two-line source. -/
def shaderVFail : vtkShader :=
  { handle := 0, type := ShaderType.Vertex, source := "a\nb", compileOk := false,
    compiledHandle := 9, compileError := "bad" }

/-- A GL oracle where program creation yields handle 4, linking succeeds, and
every attribute (resp. uniform) name resolves to location 3 (resp. 5). -/
def glEnvSample : GLEnv :=
  { newProgramHandle := 4, linkStatus := fun _ => true, infoLogLength := fun _ => 0,
    infoLog := fun _ => "", attribLocation := fun _ _ => 3, uniformLocation := fun _ _ => 5 }

/-- A linked program with native handle 3 and both shader types attached. -/
def progSample : vtkShaderProgram :=
  { Handle := 3, VertexShaderHandle := 5, FragmentShaderHandle := 7,
    Linked := true, Bound := false, Compiled := false, Error := "",
    Attributes := [],
    VertexShader := shaderV5, FragmentShader := shaderF7,
    GeometryShader := { shader0 with type := ShaderType.Geometry } }

/-- A linked program that carries a stale error text from an earlier failed
call. -/
def progStaleError : vtkShaderProgram := { progSample with Error := "previous failure" }

/-- A freshly constructed program whose owned shaders compile successfully. -/
def progFresh : vtkShaderProgram :=
  vtkShaderProgram.construct shaderV5 shaderF7 shader0

/-- A freshly constructed program whose vertex shader fails to compile. -/
def progVFail : vtkShaderProgram :=
  vtkShaderProgram.construct shaderVFail shaderF7 shader0

/-- A freshly constructed program (unlinked, no handle, empty error). -/
def progUnlinked : vtkShaderProgram :=
  vtkShaderProgram.construct shader0 shader0 shader0

/-! Theorems. -/

namespace vtkShaderProgram

/-- Claim C1: the `linked` flag is governed exactly by Link/Attach/Detach: a
Link on an already-linked program is a no-op returning success; a successful
Link leaves `linked = true`; every successful AttachShader and every successful
DetachShader leaves `linked = false`. -/
theorem linked_flag_discipline (env : GLEnv) (p : vtkShaderProgram) (s : vtkShader) :
    (p.Linked = true → Link env p = (true, p, [])) ∧
    ((Link env p).1 = true → (Link env p).2.1.Linked = true) ∧
    ((AttachShader env p s).1 = true → (AttachShader env p s).2.1.Linked = false) ∧
    ((DetachShader p s).1 = true → (DetachShader p s).2.1.Linked = false) := by
  refine ⟨?_, ?_, ?_, ?_⟩
  · intro h; simp [Link, h]
  · intro h
    simp only [Link] at h ⊢
    split_ifs at h ⊢ <;> simp_all
  · intro h
    simp only [AttachShader] at h ⊢
    split_ifs at h ⊢ <;> simp_all
  · intro h
    simp only [DetachShader] at h ⊢
    cases hst : s.type <;> split_ifs at h ⊢ <;> simp_all

theorem linked_flag_discipline_witness :
    Link glEnvSample progSample = (true, progSample, []) ∧
    (Link glEnvSample progSample).2.1.Linked = true ∧
    (AttachShader glEnvSample progSample shaderV5).2.1.Linked = false ∧
    (DetachShader progSample shaderV5).2.1.Linked = false := by
  obtain ⟨h1, h2, h3, h4⟩ := linked_flag_discipline glEnvSample progSample shaderV5
  exact ⟨h1 (by decide), h2 (by decide), h3 (by decide), h4 (by decide)⟩

/-- Claim C4: on a program that already holds a native handle, attaching a
second valid shader of an already-occupied type first issues a native detach of
the previously recorded handle of that type, records the new shader's handle,
succeeds, and leaves `linked = false`; this holds for Vertex and for Fragment
shaders alike. -/
theorem attach_second_same_type_detaches_previous (env : GLEnv) (p : vtkShaderProgram)
    (s : vtkShader) (hp : p.Handle ≠ 0) (hs : s.handle ≠ 0) :
    (s.type = ShaderType.Vertex → p.VertexShaderHandle ≠ 0 →
       AttachShader env p s =
         (true, { p with VertexShaderHandle := s.handle, Linked := false },
          [GLCall.detachShader p.Handle p.VertexShaderHandle,
           GLCall.attachShader p.Handle s.handle])) ∧
    (s.type = ShaderType.Fragment → p.FragmentShaderHandle ≠ 0 →
       AttachShader env p s =
         (true, { p with FragmentShaderHandle := s.handle, Linked := false },
          [GLCall.detachShader p.Handle p.FragmentShaderHandle,
           GLCall.attachShader p.Handle s.handle])) := by
  constructor <;> intro ht hprev <;> simp [AttachShader, hp, hs, ht, hprev]

theorem attach_second_same_type_detaches_previous_witness :
    AttachShader glEnvSample progSample shaderV5 =
      (true, { progSample with VertexShaderHandle := 5, Linked := false },
       [GLCall.detachShader 3 5, GLCall.attachShader 3 5]) ∧
    AttachShader glEnvSample progSample shaderF7 =
      (true, { progSample with FragmentShaderHandle := 7, Linked := false },
       [GLCall.detachShader 3 7, GLCall.attachShader 3 7]) := by
  obtain ⟨hv, _⟩ :=
    attach_second_same_type_detaches_previous glEnvSample progSample shaderV5
      (by decide) (by decide)
  obtain ⟨_, hf⟩ :=
    attach_second_same_type_detaches_previous glEnvSample progSample shaderF7
      (by decide) (by decide)
  exact ⟨hv (by decide) (by decide), hf (by decide) (by decide)⟩

/-- Claim C5: attaching a shader whose native handle is 0 fails with the
invalid-shader error message, issues no native call (so no native program is
created), and leaves every other field of the program — in particular its
handle — unchanged. -/
theorem attach_uninitialized_shader_fails (env : GLEnv) (p : vtkShaderProgram)
    (s : vtkShader) (hs : s.handle = 0) :
    AttachShader env p s =
      (false, { p with Error := "Shader object was not initialized, cannot attach it." },
       []) := by
  simp [AttachShader, hs]

theorem attach_uninitialized_shader_fails_witness :
    AttachShader glEnvSample progSample shader0 =
      (false, { progSample with Error := "Shader object was not initialized, cannot attach it." },
       []) :=
  attach_uninitialized_shader_fails glEnvSample progSample shader0 (by decide)

/-- Claim C9: SetAttributeArray on an empty input sequence fails with the
empty-array error, issues no native call, and its behaviour does not depend on
the inferred element type tag (neither the type inference nor the
buffer-pointer upload path is reached). -/
theorem setAttributeArray_empty_fails {α : Type} (env : GLEnv) (p : vtkShaderProgram)
    (name : String) (array : List α) (elemTypeId tupleSize : Int) (ha : array = []) :
    SetAttributeArray env p name array elemTypeId tupleSize =
      (false,
       { p with Error := "Refusing to upload empty array for attribute " ++ name ++ "." },
       []) := by
  subst ha; simp [SetAttributeArray]

theorem setAttributeArray_empty_fails_witness :
    SetAttributeArray glEnvSample progSample "pos" ([] : List Int) 10 3 =
      (false,
       { progSample with Error := "Refusing to upload empty array for attribute pos." },
       []) :=
  setAttributeArray_empty_fails glEnvSample progSample "pos" ([] : List Int) 10 3 rfl

/-- Claim C10: DetachShader with a valid Vertex or Fragment shader on a program
whose native handle is 0 does not return at the not-initialized check (that
check only assigns an error message); when the program's per-type recorded
handles are 0 the call returns false and the final error text is the
not-attached message, which has overwritten the not-initialized message. -/
theorem detach_on_uninitialized_program_not_attached (p : vtkShaderProgram)
    (s : vtkShader) (hs : s.handle ≠ 0)
    (ht : s.type = ShaderType.Vertex ∨ s.type = ShaderType.Fragment)
    (hp : p.Handle = 0) (hv : p.VertexShaderHandle = 0) (hf : p.FragmentShaderHandle = 0) :
    DetachShader p s =
      (false, { p with Error := "The supplied shader was not attached to this program." },
       []) := by
  rcases ht with ht | ht <;>
    simp [DetachShader, hs, ht, hp, hv, hf, Ne.symm hs]

theorem detach_on_uninitialized_program_not_attached_witness :
    DetachShader progUnlinked shaderV5 =
      (false,
       { progUnlinked with Error := "The supplied shader was not attached to this program." },
       []) :=
  detach_on_uninitialized_program_not_attached progUnlinked shaderV5
    (by decide) (Or.inl (by decide)) (by decide) (by decide) (by decide)

/-- Claim C2, counterexample: on a freshly constructed (unlinked) program whose
error field is empty, FindAttributeArray and FindUniform return -1 but do NOT
set an error — the error field is still empty afterwards, contradicting the
claim that an error is set. -/
theorem find_unlinked_error_not_set_cex :
    progUnlinked.Error = "" ∧
    (FindAttributeArray glEnvSample progUnlinked "foo").1 = -1 ∧
    (FindAttributeArray glEnvSample progUnlinked "foo").2.1.Error = "" ∧
    (FindUniform glEnvSample progUnlinked "foo").1 = -1 ∧
    (FindUniform glEnvSample progUnlinked "foo").2.1.Error = "" := by
  decide

/-- Claim C2, amended: when the name is empty or the program is not linked,
FindAttributeArray and FindUniform return -1 without issuing any native call
and leave the program state — in particular the error field — unchanged (no
error is set on this fail-fast path). -/
theorem find_fail_fast_no_native_call (env : GLEnv) (p : vtkShaderProgram)
    (name : String) (h : name = "" ∨ p.Linked = false) :
    FindAttributeArray env p name = (-1, p, []) ∧
    FindUniform env p name = (-1, p, []) := by
  rcases h with h | h <;> constructor <;> simp [FindAttributeArray, FindUniform, h]

theorem find_fail_fast_no_native_call_witness :
    FindAttributeArray glEnvSample progUnlinked "abc" = (-1, progUnlinked, []) ∧
    FindUniform glEnvSample progUnlinked "abc" = (-1, progUnlinked, []) :=
  find_fail_fast_no_native_call glEnvSample progUnlinked "abc" (Or.inr (by decide))

/-- Claim C3, counterexample: on a linked program with an empty attribute map,
a successful FindAttributeArray (returning location 3) leaves the map empty —
the entry name -> location is NOT inserted — and a repeated lookup of the same
name issues the native query again instead of being answered from the map. -/
theorem attribute_cache_not_populated_cex :
    (FindAttributeArray glEnvSample progSample "a").1 = 3 ∧
    (FindAttributeArray glEnvSample progSample "a").2.1.Attributes = [] ∧
    (FindAttributeArray glEnvSample
        (FindAttributeArray glEnvSample progSample "a").2.1 "a").2.2 =
      [GLCall.getAttribLocation 3 "a"] := by
  decide

/-- Claim C3, amended: FindAttributeArray never reads or writes the attribute
map (every lookup leaves the map unchanged, and a repeated lookup issues the
native query again); the map is cleared on each successful Link that performs
the native link step (a no-op Link on an already-linked program leaves it
unchanged). -/
theorem attribute_cache_unused_by_lookups (env : GLEnv) (p : vtkShaderProgram)
    (name : String) :
    ((FindAttributeArray env p name).2.1.Attributes = p.Attributes) ∧
    (p.Linked = false → (Link env p).1 = true → (Link env p).2.1.Attributes = []) := by
  constructor
  · simp only [FindAttributeArray]
    split_ifs <;> simp
  · intro hl h
    simp only [Link, hl] at h ⊢
    split_ifs at h ⊢ <;> simp_all

theorem attribute_cache_unused_by_lookups_witness :
    ((FindAttributeArray glEnvSample progSample "a").2.1.Attributes =
       progSample.Attributes) ∧
    (Link glEnvSample { progSample with Linked := false }).2.1.Attributes = [] := by
  obtain ⟨h1, _⟩ := attribute_cache_unused_by_lookups glEnvSample progSample "a"
  obtain ⟨_, h2⟩ :=
    attribute_cache_unused_by_lookups glEnvSample { progSample with Linked := false } "a"
  exact ⟨h1, h2 (by decide) (by decide)⟩

/-- Claim C8, counterexample: a program carrying the stale error text
"previous failure" from an earlier failed call performs a successful
AttachShader and a successful (no-op) Link, yet GetError() afterwards still
returns "previous failure", not the empty string — success does not clear the
error. -/
theorem success_leaves_stale_error_cex :
    (AttachShader glEnvSample progStaleError shaderV5).1 = true ∧
    (AttachShader glEnvSample progStaleError shaderV5).2.1.Error = "previous failure" ∧
    (Link glEnvSample progStaleError).1 = true ∧
    (Link glEnvSample progStaleError).2.1.Error = "previous failure" := by
  decide

/-- Claim C8, amended: the last-error string is never cleared by success; a
successful AttachShader and a successful Link leave the error field exactly as
it was, so GetError() after a successful operation returns whatever error text
was last recorded by a failure. -/
theorem success_preserves_error (env : GLEnv) (p : vtkShaderProgram) (s : vtkShader) :
    ((AttachShader env p s).1 = true → (AttachShader env p s).2.1.Error = p.Error) ∧
    ((Link env p).1 = true → (Link env p).2.1.Error = p.Error) := by
  constructor
  · intro h
    simp only [AttachShader] at h ⊢
    split_ifs at h ⊢ <;> simp_all
  · intro h
    simp only [Link] at h ⊢
    split_ifs at h ⊢ <;> simp_all

theorem success_preserves_error_witness :
    (AttachShader glEnvSample progStaleError shaderV5).2.1.Error =
      progStaleError.Error ∧
    (Link glEnvSample progStaleError).2.1.Error = progStaleError.Error := by
  obtain ⟨h1, h2⟩ := success_preserves_error glEnvSample progStaleError shaderV5
  exact ⟨h1 (by decide), h2 (by decide)⟩

/-- AttachShader never touches the Compiled flag. -/
theorem AttachShader_Compiled (env : GLEnv) (p : vtkShaderProgram) (s : vtkShader) :
    (AttachShader env p s).2.1.Compiled = p.Compiled := by
  simp only [AttachShader]
  split_ifs <;> simp

/-- Link never touches the Compiled flag. -/
theorem Link_Compiled (env : GLEnv) (p : vtkShaderProgram) :
    (Link env p).2.1.Compiled = p.Compiled := by
  simp only [Link]
  split_ifs <;> simp

/-- Claim C6: when the vertex shader's Compile fails, CompileShader returns 0,
leaves the program state unchanged, issues no native call (so neither
AttachShader nor Link is reached, nor the fragment shader's compile), and
reports exactly the vertex shader's own error followed by the 1-indexed
line-numbered listing of that shader's source; moreover CompileShader sets
Compiled to true only on full success (a 0 result leaves Compiled as it was,
a 1 result has Compiled = true). -/
theorem compileShader_vertex_failure (env : GLEnv) (p : vtkShaderProgram) :
    (p.VertexShader.compileOk = false →
       CompileShader env p =
         (0, p, [], [p.VertexShader.compileError,
                     numberedListing p.VertexShader.source])) ∧
    ((CompileShader env p).1 = 1 → (CompileShader env p).2.1.Compiled = true) ∧
    ((CompileShader env p).1 = 0 → (CompileShader env p).2.1.Compiled = p.Compiled) := by
  refine ⟨?_, ?_, ?_⟩
  · intro h
    simp [CompileShader, vtkShader.compile, h]
  · intro h
    simp only [CompileShader] at h ⊢
    split_ifs at h ⊢ <;> simp_all [AttachShader_Compiled, Link_Compiled]
  · intro h
    simp only [CompileShader] at h ⊢
    split_ifs at h ⊢ <;> simp_all [AttachShader_Compiled, Link_Compiled]

theorem compileShader_vertex_failure_witness :
    CompileShader glEnvSample progVFail = (0, progVFail, [], ["bad", "1: a\n2: b\n"]) ∧
    (CompileShader glEnvSample progVFail).2.1.Compiled = progVFail.Compiled ∧
    (CompileShader glEnvSample progFresh).2.1.Compiled = true := by
  obtain ⟨h1, _, h3⟩ := compileShader_vertex_failure glEnvSample progVFail
  obtain ⟨_, h2, _⟩ := compileShader_vertex_failure glEnvSample progFresh
  refine ⟨?_, h3 (by decide), h2 (by decide)⟩
  have e := h1 (by decide)
  rw [e]
  decide

/-- DetachShader never touches the program handle. -/
theorem DetachShader_Handle (p : vtkShaderProgram) (s : vtkShader) :
    (DetachShader p s).2.1.Handle = p.Handle := by
  simp only [DetachShader]
  cases hst : s.type <;> split_ifs <;> simp_all

/-- DetachShader never touches the Bound flag. -/
theorem DetachShader_Bound (p : vtkShaderProgram) (s : vtkShader) :
    (DetachShader p s).2.1.Bound = p.Bound := by
  simp only [DetachShader]
  cases hst : s.type <;> split_ifs <;> simp_all

/-- DetachShader never touches the Compiled flag. -/
theorem DetachShader_Compiled (p : vtkShaderProgram) (s : vtkShader) :
    (DetachShader p s).2.1.Compiled = p.Compiled := by
  simp only [DetachShader]
  cases hst : s.type <;> split_ifs <;> simp_all

/-- DetachShader never raises the Linked flag. -/
theorem DetachShader_Linked_false (p : vtkShaderProgram) (s : vtkShader)
    (h : p.Linked = false) : (DetachShader p s).2.1.Linked = false := by
  simp only [DetachShader]
  cases hst : s.type <;> split_ifs <;> simp_all

/-- After ReleaseGraphicsResources, on any state satisfying the reachability
invariant (a program without a native handle is never linked), the handle is 0
and all three flags are false. -/
theorem RGR_state_after (p : vtkShaderProgram) (w : WindowState)
    (hinv : p.Handle = 0 → p.Linked = false) :
    (ReleaseGraphicsResources p w).1.Handle = 0 ∧
    (ReleaseGraphicsResources p w).1.Linked = false ∧
    (ReleaseGraphicsResources p w).1.Bound = false ∧
    (ReleaseGraphicsResources p w).1.Compiled = false := by
  unfold ReleaseGraphicsResources Release
  by_cases hc : p.Compiled <;> by_cases hh : p.Handle = 0 <;>
    simp_all [DetachShader_Handle, DetachShader_Bound, DetachShader_Compiled,
              DetachShader_Linked_false]

/-- ReleaseGraphicsResources leaves a torn-down program state untouched. -/
theorem RGR_noop (q : vtkShaderProgram) (w : WindowState)
    (h0 : q.Handle = 0) (hb : q.Bound = false) (hc : q.Compiled = false) :
    (ReleaseGraphicsResources q w).1 = q := by
  obtain ⟨a, b, c, d, e, f, g, h, i, j, k⟩ := q
  simp only at h0 hb hc
  subst h0 hb hc
  unfold ReleaseGraphicsResources Release
  simp

/-- Claim C7: ReleaseGraphicsResources is idempotent: on any state satisfying
the reachability invariant (no handle implies not linked) — in particular on a
never-attached, freshly constructed program — one call leaves
handle = 0, linked = false, bound = false, compiled = false, and a second call
in a row changes nothing. -/
theorem releaseGraphicsResources_idempotent (p : vtkShaderProgram) (w : WindowState)
    (hinv : p.Handle = 0 → p.Linked = false) :
    ((ReleaseGraphicsResources p w).1.Handle = 0 ∧
     (ReleaseGraphicsResources p w).1.Linked = false ∧
     (ReleaseGraphicsResources p w).1.Bound = false ∧
     (ReleaseGraphicsResources p w).1.Compiled = false) ∧
    (ReleaseGraphicsResources (ReleaseGraphicsResources p w).1
        (ReleaseGraphicsResources p w).2.1).1 =
      (ReleaseGraphicsResources p w).1 := by
  obtain ⟨h1, h2, h3, h4⟩ := RGR_state_after p w hinv
  exact ⟨⟨h1, h2, h3, h4⟩, RGR_noop _ _ h1 h3 h4⟩

theorem releaseGraphicsResources_idempotent_witness :
    ((ReleaseGraphicsResources progUnlinked ⟨true⟩).1.Handle = 0 ∧
     (ReleaseGraphicsResources progUnlinked ⟨true⟩).1.Linked = false ∧
     (ReleaseGraphicsResources progUnlinked ⟨true⟩).1.Bound = false ∧
     (ReleaseGraphicsResources progUnlinked ⟨true⟩).1.Compiled = false) ∧
    (ReleaseGraphicsResources (ReleaseGraphicsResources progUnlinked ⟨true⟩).1
        (ReleaseGraphicsResources progUnlinked ⟨true⟩).2.1).1 =
      (ReleaseGraphicsResources progUnlinked ⟨true⟩).1 :=
  releaseGraphicsResources_idempotent progUnlinked ⟨true⟩ (by decide)

end vtkShaderProgram
